import Mathlib

/-! Shallow embedding of the cubeb PulseAudio stream backend
(src/backend/stream.rs): the sample-format mapping and stream
construction, the buffering policy, the write-path loop of
trigger_user_callback, the read-ready callback, the cork/uncork
lifecycle and the drain-timer discipline, and the latency query.
Machine integers are modelled as Nat with explicit reductions
modulo two to the wire width where the source can overflow. -/

namespace CubebPulse

/-- Sample formats of the host API (cubeb::SampleFormat).  The source
matches the four named encodings and sends everything else to the
invalid wire format, so unknown raw values are kept as a Nat code. -/
inductive CubebSampleFormat
  | s16le
  | s16be
  | float32le
  | float32be
  | other (code : Nat)
deriving DecidableEq

/-- Wire-level sample formats (pulse::SampleFormat) as used by
to_pulse_format in stream_init. -/
inductive PulseSampleFormat
  | signed16LE
  | signed16BE
  | float32LE
  | float32BE
  | invalid
deriving DecidableEq

/-- Error outcomes of the backend (cubeb::ERROR,
cubeb::ERROR_INVALID_FORMAT, cubeb::ERROR_NOT_SUPPORTED). -/
inductive CubebError
  | generic
  | invalidFormat
  | notSupported
deriving DecidableEq

/-- Lifecycle states reported through the state callback
(cubeb::STATE_ERROR, STATE_STOPPED, STATE_STARTED, STATE_DRAINED). -/
inductive CubebState
  | error
  | stopped
  | started
  | drained
deriving DecidableEq

/-- Bytes per sample of a wire format (pa_sample_size). -/
def sampleSize : PulseSampleFormat → Nat
  | .signed16LE => 2
  | .signed16BE => 2
  | .float32LE => 4
  | .float32BE => 4
  | .invalid => 0

/-- A negotiated sample spec (pulse::SampleSpec): format, rate, channels. -/
structure SampleSpec where
  format : PulseSampleFormat
  rate : Nat
  channels : Nat
deriving DecidableEq

/-- pa_frame_size: bytes per sample times channel count. -/
def frame_size (ss : SampleSpec) : Nat := sampleSize ss.format * ss.channels

/-- Modulus of the 32-bit unsigned wire integers (u32 arithmetic). -/
def U32_MOD : Nat := 2 ^ 32

/-- pa_buffer_attr as filled in by set_buffering_attribute. -/
structure BufferAttr where
  maxlength : Nat
  tlength : Nat
  prebuf : Nat
  minreq : Nat
  fragsize : Nat
deriving DecidableEq

/-- set_buffering_attribute (stream.rs:785): tlength is
latency_frames * frame_size in u32 arithmetic, minreq and fragsize are
tlength / 4, maxlength and prebuf are u32::max_value(). -/
def set_buffering_attribute (latency_frames : Nat) (ss : SampleSpec) : BufferAttr :=
  let tlength := latency_frames * frame_size ss % U32_MOD
  let minreq := tlength / 4
  { maxlength := U32_MOD - 1
    tlength := tlength
    prebuf := U32_MOD - 1
    minreq := minreq
    fragsize := minreq }

/-- to_pulse_format (stream.rs:545): the four supported encodings map to
their wire formats, everything else to the invalid format. -/
def to_pulse_format : CubebSampleFormat → PulseSampleFormat
  | .s16le => .signed16LE
  | .s16be => .signed16BE
  | .float32le => .float32LE
  | .float32be => .float32BE
  | .other _ => .invalid

/-- Result of stream_init: the outcome, and whether pulse::Stream::new
(the transport-handle constructor) was ever invoked. -/
structure StreamInitResult where
  result : Except CubebError SampleSpec
  calledStreamNew : Bool

/-- stream_init (stream.rs:540): reject an encoding with no wire mapping
with ERROR_INVALID_FORMAT before calling pulse::Stream::new; otherwise
build the sample spec and create the transport handle, failing with the
generic error when the handle comes back null.  The environment decides
whether handle creation succeeds. -/
def stream_init (fmt : CubebSampleFormat) (channels rate : Nat)
    (streamNewSucceeds : Bool) : StreamInitResult :=
  let pfmt := to_pulse_format fmt
  if pfmt = PulseSampleFormat.invalid then
    { result := Except.error CubebError.invalidFormat, calledStreamNew := false }
  else if streamNewSucceeds then
    { result := Except.ok { format := pfmt, rate := rate, channels := channels }
      calledStreamNew := true }
  else
    { result := Except.error CubebError.generic, calledStreamNew := true }

/-- PA_USEC_PER_SEC. -/
def PA_USEC_PER_SEC : Nat := 1000000

/-- Modulus of the 64-bit unsigned pa_usec_t arithmetic. -/
def U64_MOD : Nat := 2 ^ 64

/-- Stream::latency (stream.rs:401): fails when there is no output
stream or when get_latency fails; on a reply (r_usec, negative) it
returns r_usec * rate / PA_USEC_PER_SEC truncated to u32, the product
taken in u64 arithmetic. -/
def latency (outputPresent : Bool) (outputRate : Nat)
    (reply : Option (Nat × Bool)) : Except CubebError Nat :=
  if outputPresent = false then Except.error CubebError.generic
  else
    match reply with
    | none => Except.error CubebError.generic
    | some (r_usec, _negative) =>
        Except.ok (r_usec * outputRate % U64_MOD / PA_USEC_PER_SEC % U32_MOD)

/-- The debug_assert!(negative) executed by Stream::latency on every
successful get_latency reply (stream.rs:407). -/
def latencyDebugAssert (negative : Bool) : Prop := negative = true

/-- C9: the buffering policy computes target length
latency_frames * frame_size bytes, and minimum-request size and
fragment size are exactly one quarter of the target length. -/
theorem buffer_attr_quarter_target (latency_frames : Nat) (ss : SampleSpec)
    (h : latency_frames * frame_size ss < U32_MOD) :
    (set_buffering_attribute latency_frames ss).tlength = latency_frames * frame_size ss ∧
    (set_buffering_attribute latency_frames ss).minreq =
      (set_buffering_attribute latency_frames ss).tlength / 4 ∧
    (set_buffering_attribute latency_frames ss).fragsize =
      (set_buffering_attribute latency_frames ss).tlength / 4 := by
  refine ⟨?_, rfl, rfl⟩
  simp [set_buffering_attribute, Nat.mod_eq_of_lt h]

theorem buffer_attr_quarter_target_witness :
    (set_buffering_attribute 441 ⟨.signed16LE, 44100, 2⟩).tlength =
      441 * frame_size ⟨.signed16LE, 44100, 2⟩ ∧
    (set_buffering_attribute 441 ⟨.signed16LE, 44100, 2⟩).minreq =
      (set_buffering_attribute 441 ⟨.signed16LE, 44100, 2⟩).tlength / 4 ∧
    (set_buffering_attribute 441 ⟨.signed16LE, 44100, 2⟩).fragsize =
      (set_buffering_attribute 441 ⟨.signed16LE, 44100, 2⟩).tlength / 4 :=
  buffer_attr_quarter_target 441 ⟨.signed16LE, 44100, 2⟩ (by decide)

/-- C7: each of the four supported encodings maps to a valid wire format
and stream_init succeeds when transport-handle creation succeeds; every
other encoding fails with InvalidFormat without the transport-handle
constructor ever being called, so no sub-stream is partially built. -/
theorem stream_init_format_mapping (fmt : CubebSampleFormat) (ch rate : Nat) :
    ((fmt = .s16le ∨ fmt = .s16be ∨ fmt = .float32le ∨ fmt = .float32be) →
        to_pulse_format fmt ≠ PulseSampleFormat.invalid ∧
        (stream_init fmt ch rate true).result =
          Except.ok { format := to_pulse_format fmt, rate := rate, channels := ch }) ∧
    (¬(fmt = .s16le ∨ fmt = .s16be ∨ fmt = .float32le ∨ fmt = .float32be) →
        ∀ streamNewSucceeds,
          (stream_init fmt ch rate streamNewSucceeds).result =
            Except.error CubebError.invalidFormat ∧
          (stream_init fmt ch rate streamNewSucceeds).calledStreamNew = false) := by
  cases fmt <;> simp [stream_init, to_pulse_format]

theorem stream_init_format_mapping_witness :
    (stream_init .s16le 2 44100 true).result =
      Except.ok { format := .signed16LE, rate := 44100, channels := 2 } ∧
    (stream_init (.other 999) 2 44100 true).result =
      Except.error CubebError.invalidFormat ∧
    (stream_init (.other 999) 2 44100 true).calledStreamNew = false :=
  ⟨((stream_init_format_mapping .s16le 2 44100).1 (Or.inl rfl)).2,
   ((stream_init_format_mapping (.other 999) 2 44100).2 (by decide) true).1,
   ((stream_init_format_mapping (.other 999) 2 44100).2 (by decide) true).2⟩

/-- C10: a successful latency query returns the server-reported
microsecond latency times the output rate divided by one million,
truncated to 32 bits, and the debug assertion in latency() holds exactly
when the reply has the negative flag set: it fails on any reply with the
flag clear. -/
theorem latency_formula_and_assert (rate r_usec : Nat) (negative : Bool)
    (h : r_usec * rate < U64_MOD) :
    latency true rate (some (r_usec, negative)) =
      Except.ok (r_usec * rate / PA_USEC_PER_SEC % U32_MOD) ∧
    (latencyDebugAssert negative ↔ negative = true) ∧
    (negative = false → ¬ latencyDebugAssert negative) := by
  refine ⟨?_, Iff.rfl, ?_⟩
  · simp [latency, Nat.mod_eq_of_lt h]
  · intro hf hn
    rw [latencyDebugAssert, hf] at hn
    exact Bool.false_ne_true hn

theorem latency_formula_and_assert_witness :
    latency true 44100 (some (10000, true)) =
      Except.ok (10000 * 44100 / PA_USEC_PER_SEC % U32_MOD) :=
  (latency_formula_and_assert 44100 10000 true (by decide)).1

/-- Wrap an integer into the two-complement range of i16. -/
def i16wrap (x : Int) : Int := (x + 32768) % 65536 - 32768

/-- The in-place i16 multiply-assign of the volume pass: wrapping
16-bit multiplication. -/
def i16mul (a b : Int) : Int := i16wrap (a * b)

/-- The indexed in-place loop of the volume pass (stream.rs:726 and
stream.rs:731): for i in 0..n the sample at index i is replaced by
itself multiplied by the gain.  gainLoop mul g b n is the buffer after
the first n iterations. -/
def gainLoop {α : Type} (mul : α → α → α) (g : α) (b : List α) : Nat → List α
  | 0 => b
  | n + 1 =>
    let p := gainLoop mul g b n
    match p[n]? with
    | some v => p.set n (mul v g)
    | none => p

/-- The 16-bit branch of the volume pass (stream.rs:725-728): runs when
the gain is not the PULSE_NO_GAIN sentinel, multiplying every i16
sample by the gain truncated to i16 (self.volume as i16).
volumeIsSentinel carries the comparison volume == PULSE_NO_GAIN. -/
def s16GainPass (volumeIsSentinel : Bool) (g16 : Int) (b : List Int) : List Int :=
  if volumeIsSentinel then b else gainLoop i16mul g16 b b.length

/-- The 32-bit float branch of the volume pass (stream.rs:730-733):
multiplies every f32 sample by the gain.  Hardware f32 multiplication
is not shallow-embeddable, so the sample carrier and its multiply are
parameters; the loop structure is from the source. -/
def f32GainPass {α : Type} (fmul : α → α → α) (volumeIsSentinel : Bool)
    (g : α) (b : List α) : List α :=
  if volumeIsSentinel then b else gainLoop fmul g b b.length

/-- The format dispatch of the volume pass (stream.rs:723-724): the
16-bit integer branch is taken exactly for PA_SAMPLE_S16BE and
PA_SAMPLE_S16LE. -/
def formatUses16BitPath (fmt : PulseSampleFormat) : Bool :=
  fmt == PulseSampleFormat.signed16BE || fmt == PulseSampleFormat.signed16LE

theorem gainLoop_length {α : Type} (mul : α → α → α) (g : α) (b : List α)
    (n : Nat) : (gainLoop mul g b n).length = b.length := by
  induction n with
  | zero => rfl
  | succ n ih =>
    rw [gainLoop]
    cases h : (gainLoop mul g b n)[n]? with
    | none => simpa using ih
    | some v => simpa using ih

theorem gainLoop_getElem? {α : Type} (mul : α → α → α) (g : α) (b : List α)
    (n i : Nat) :
    (gainLoop mul g b n)[i]? =
      if i < n then (b[i]?).map (fun s => mul s g) else b[i]? := by
  induction n generalizing i with
  | zero => simp [gainLoop]
  | succ n ih =>
    rw [gainLoop]
    have hn : (gainLoop mul g b n)[n]? = b[n]? := by simpa using ih n
    cases h : (gainLoop mul g b n)[n]? with
    | none =>
      rcases Nat.lt_trichotomy i n with hi | hi | hi
      · simpa [hi, Nat.lt_succ_of_lt hi] using ih i
      · subst hi
        rw [← hn, h]
        simp [Nat.lt_succ_self, ← hn, h]
      · have h1 : ¬ i < n := Nat.not_lt.2 (Nat.le_of_lt hi)
        have h2 : ¬ i < n + 1 := Nat.not_lt.2 hi
        simpa [h1, h2] using ih i
    | some v =>
      have hb : b[n]? = some v := hn ▸ h
      rcases Nat.lt_trichotomy i n with hi | hi | hi
      · rw [List.getElem?_set_ne (Nat.ne_of_gt hi)]
        simpa [hi, Nat.lt_succ_of_lt hi] using ih i
      · subst hi
        rw [List.getElem?_set_self']
        simp [h, hb, Nat.lt_succ_self]
      · have h1 : ¬ i < n := Nat.not_lt.2 (Nat.le_of_lt hi)
        have h2 : ¬ i < n + 1 := Nat.not_lt.2 hi
        rw [List.getElem?_set_ne (Nat.ne_of_lt hi)]
        simpa [h1, h2] using ih i

/-- C1: when a non-sentinel gain is set, the volume pass scales every
sample of the region independently: the 16-bit integer branch (taken
exactly for the S16 encodings) replaces each sample by its wrapping
i16 product with the gain truncated to i16, the float branch replaces
each sample by its f32 product with the gain, and neither branch
touches the length or any sample beyond its own index. -/
theorem volume_scaling_per_sample {α : Type} (fmul : α → α → α)
    (volumeIsSentinel : Bool) (hset : volumeIsSentinel = false)
    (g16 : Int) (gf : α) (b16 : List Int) (bf : List α) :
    (formatUses16BitPath .signed16LE = true ∧
     formatUses16BitPath .signed16BE = true ∧
     formatUses16BitPath .float32LE = false ∧
     formatUses16BitPath .float32BE = false) ∧
    ((s16GainPass volumeIsSentinel g16 b16).length = b16.length ∧
      ∀ i, i < b16.length →
        (s16GainPass volumeIsSentinel g16 b16)[i]? =
          some (i16mul (b16.getD i 0) g16)) ∧
    ((f32GainPass fmul volumeIsSentinel gf bf).length = bf.length ∧
      ∀ i : Nat, (f32GainPass fmul volumeIsSentinel gf bf)[i]? =
        (bf[i]?).map (fun s => fmul s gf)) := by
  subst hset
  refine ⟨⟨rfl, rfl, rfl, rfl⟩, ⟨gainLoop_length _ _ _ _, ?_⟩,
    ⟨gainLoop_length _ _ _ _, ?_⟩⟩
  · intro i hi
    rw [s16GainPass]
    simp only [Bool.false_eq_true, if_false]
    rw [gainLoop_getElem?, if_pos hi, List.getD_eq_getElem?_getD,
      List.getElem?_eq_getElem hi]
    rfl
  · intro i
    rw [f32GainPass]
    simp only [Bool.false_eq_true, if_false]
    rw [gainLoop_getElem?]
    by_cases hi : i < bf.length
    · rw [if_pos hi]
    · rw [if_neg hi, List.getElem?_eq_none (Nat.not_lt.1 hi)]
      rfl

theorem volume_scaling_per_sample_witness :
    (s16GainPass false 3 [100, -5])[0]? = some (i16mul 100 3) ∧
    (s16GainPass false 3 [100, -5])[1]? = some (i16mul (-5) 3) ∧
    (f32GainPass (fun a b => a * b) false (3 : Int) [7])[0]? = some 21 :=
  ⟨((volume_scaling_per_sample (fun a b : Int => a * b) false rfl 3 3
      [100, -5] [7]).2.1.2 0 (by decide)),
   ((volume_scaling_per_sample (fun a b : Int => a * b) false rfl 3 3
      [100, -5] [7]).2.1.2 1 (by decide)),
   ((volume_scaling_per_sample (fun a b : Int => a * b) false rfl 3 3
      [100, -5] [7]).2.2.2 0)⟩

/-- How a raw device selector pointer is dereferenced when building the
connect request: a null pointer passed to CStr::from_ptr is undefined
behaviour, a non-null one yields its name. -/
inductive DevSelector
  | defaultDevice
  | named (name : String)
  | nullDeref
deriving DecidableEq

/-- CStr::from_ptr on a DeviceId modelled as Option String. -/
def derefDeviceId : Option String → DevSelector
  | none => .nullDeref
  | some s => .named s

/-- Device name passed to connect_playback (stream.rs:202-206): default
when the output selector is null, otherwise the dereferenced output
selector. -/
def outputConnectSelector (output_device : Option String) : DevSelector :=
  if output_device = none then .defaultDevice else derefDeviceId output_device

/-- Device name passed to connect_record (stream.rs:236-240): the null
check is on input_device, but the pointer dereferenced and passed on is
output_device, exactly as in the source. -/
def inputConnectSelector (input_device output_device : Option String) :
    DevSelector :=
  if input_device = none then .defaultDevice else derefDeviceId output_device

/-- C2 (code bug): with a non-null input selector, connect_record is
issued with the dereferenced output selector, not the input selector;
with a non-null input selector and a null output selector it
dereferences a null pointer.  The output sub-stream and the
null-means-default rule behave as claimed. -/
theorem input_connect_uses_output_device :
    inputConnectSelector (some "input-mic") (some "output-spk") =
      DevSelector.named "output-spk" ∧
    inputConnectSelector (some "input-mic") (some "output-spk") ≠
      DevSelector.named "input-mic" ∧
    inputConnectSelector (some "input-mic") none = DevSelector.nullDeref ∧
    inputConnectSelector none (some "output-spk") = DevSelector.defaultDevice ∧
    outputConnectSelector (some "output-spk") = DevSelector.named "output-spk" ∧
    outputConnectSelector none = DevSelector.defaultDevice := by
  refine ⟨rfl, ?_, rfl, rfl, rfl, rfl⟩
  intro h
  simp [inputConnectSelector, derefDeviceId] at h

/-- Environment responses consumed by one iteration of the write loop:
the begin_write answer of the output transport (some granted writable
byte count, or none for a begin_write failure) and the frame count
returned by the application data callback. -/
structure WriteEnv where
  beginWrite : Option Nat
  callbackReturn : Int
deriving DecidableEq

/-- How one call of the write loop ended. -/
inductive WriteOutcome
  | completed
  | callbackNegative
  | drained
  | panicked
  | noEnv
deriving DecidableEq

/-- Observable result of one trigger_user_callback call: the outcome,
the final input read offset, the byte counts committed to the transport
per iteration in order, whether shutdown was set, whether a drain timer
was scheduled, and whether the in-flight write was cancelled. -/
structure WriteResult where
  outcome : WriteOutcome
  readOffset : Nat
  committed : List Nat
  setShutdown : Bool
  scheduledDrainTimer : Bool
  cancelledWrite : Bool
deriving DecidableEq

/-- The write loop of trigger_user_callback (stream.rs:686-770), with
ofs the output frame size and ifs the input frame size.  Per iteration:
begin_write for the remaining bytes (an Err is a panic); invoke the
data callback; a negative return cancels the write, sets shutdown and
returns with nothing of that region committed; otherwise advance the
input read offset by (granted / ofs) * ifs when real duplex input is
present, commit got * ofs bytes, and on an underrun (got below the
granted frame count) schedule the drain timer, set shutdown and return;
otherwise continue with towrite - granted.  The volume pass between
callback and commit is modelled separately (s16GainPass, f32GainPass)
since it does not change any byte count. -/
def trigger_user_callback_loop (ofs ifs : Nat) (hasInput : Bool)
    (env : List WriteEnv) (towrite ro : Nat) (comm : List Nat) : WriteResult :=
  if towrite = 0 then ⟨.completed, ro, comm.reverse, false, false, false⟩
  else
    match env with
    | [] => ⟨.noEnv, ro, comm.reverse, false, false, false⟩
    | e :: rest =>
      match e.beginWrite with
      | none => ⟨.panicked, ro, comm.reverse, false, false, false⟩
      | some size =>
        if e.callbackReturn < 0 then
          ⟨.callbackNegative, ro, comm.reverse, true, false, true⟩
        else
          let got := e.callbackReturn.toNat
          let ro2 := if hasInput then ro + size / ofs * ifs else ro
          let comm2 := got * ofs :: comm
          if got < size / ofs then
            ⟨.drained, ro2, comm2.reverse, true, true, false⟩
          else
            trigger_user_callback_loop ofs ifs hasInput rest (towrite - size)
              ro2 comm2

/-- The write size read_data computes in full-duplex mode
(stream.rs:121-127): read_frames = read_size / input frame size,
forwarded as read_frames * output frame size. -/
def duplexForwardSize (ifs ofs read_size : Nat) : Nat :=
  read_size / ifs * ofs

/-- One full-duplex chunk of read_data (stream.rs:124-130): the chunk
of read_size bytes is offered to the write path with the converted
write size, a fresh read offset and nothing committed yet. -/
def read_data_duplex_chunk (ifs ofs read_size : Nat)
    (env : List WriteEnv) : WriteResult :=
  trigger_user_callback_loop ofs ifs true env
    (duplexForwardSize ifs ofs read_size) 0 []

/-- Result of one input-only chunk of read_data. -/
structure ReadChunkResult where
  setShutdown : Bool
  cancelledWrite : Bool
  droppedRecord : Bool
  offeredFrames : Nat
deriving DecidableEq

/-- One input-only (no output stream) non-hole chunk of read_data
(stream.rs:132-151): the data callback is offered read_frames =
read_size / input frame size frames; a negative return or a return
different from the offered count cancels the read, sets shutdown and
breaks before drop_record; otherwise the record chunk is dropped
(consumed) when read_size is positive. -/
def read_data_input_only_chunk (ifs read_size : Nat) (got : Int) :
    ReadChunkResult :=
  let read_frames := read_size / ifs
  if got < 0 ∨ got.toNat ≠ read_frames then
    ⟨true, true, false, read_frames⟩
  else
    ⟨false, false, decide (0 < read_size), read_frames⟩

/-- The transport-grant discipline the code relies on: along a run of
the write loop every granted begin_write size is positive, a multiple
of the output frame size, and at most the remaining request. -/
def grantsWithin (ofs : Nat) : Nat → List WriteEnv → Bool
  | _, [] => true
  | towrite, e :: rest =>
    match e.beginWrite with
    | none => true
    | some size =>
        decide (0 < size) && decide (size % ofs = 0) &&
          decide (size ≤ towrite) && grantsWithin ofs (towrite - size) rest

theorem writeLoop_readOffset_le (ofs ifs : Nat)
    (env : List WriteEnv) :
    ∀ (towrite ro : Nat) (comm : List Nat),
      grantsWithin ofs towrite env = true →
      (trigger_user_callback_loop ofs ifs true env towrite ro comm).readOffset ≤
        ro + towrite / ofs * ifs := by
  induction env with
  | nil =>
    intro towrite ro comm _
    rw [trigger_user_callback_loop]
    by_cases h : towrite = 0 <;> simp [h]
  | cons e rest ih =>
    intro towrite ro comm hg
    rw [trigger_user_callback_loop]
    by_cases h0 : towrite = 0
    · simp [h0]
    · rw [grantsWithin] at hg
      simp only [if_neg h0]
      cases hbw : e.beginWrite with
      | none => simp
      | some size =>
        rw [hbw] at hg
        simp only [Bool.and_eq_true, decide_eq_true_eq] at hg
        obtain ⟨⟨⟨hpos, hmod⟩, hle⟩, hrest⟩ := hg
        by_cases hneg : e.callbackReturn < 0
        · simp [hneg]
        · simp only [if_neg hneg]
          by_cases hdr : e.callbackReturn.toNat < size / ofs
          · simp only [if_pos hdr]
            exact Nat.add_le_add_left
              (Nat.mul_le_mul_right ifs (Nat.div_le_div_right hle)) ro
          · simp only [if_neg hdr, if_pos rfl]
            have h2 := ih (towrite - size) (ro + size / ofs * ifs)
              (e.callbackReturn.toNat * ofs :: comm) hrest
            refine le_trans h2 (le_of_eq ?_)
            have hsplit : towrite = size + (towrite - size) :=
              (Nat.add_sub_cancel' hle).symm
            rw [Nat.add_assoc, ← Nat.add_mul]
            rw [show towrite / ofs = size / ofs + (towrite - size) / ofs from by
              conv_lhs => rw [hsplit]
              exact Nat.add_div_of_dvd_right (Nat.dvd_of_mod_eq_zero hmod)]

/-- C4: in full-duplex mode a chunk of read_size input bytes is
forwarded to the write path as (read_size / input frame size) * output
frame size bytes, and under the transport-grant discipline the
cumulative input read offset of the write loop never exceeds the
read_size bytes delivered. -/
theorem duplex_no_overread (ifs ofs read_size : Nat) (hofs : 0 < ofs)
    (env : List WriteEnv)
    (hg : grantsWithin ofs (duplexForwardSize ifs ofs read_size) env = true) :
    duplexForwardSize ifs ofs read_size = read_size / ifs * ofs ∧
    (read_data_duplex_chunk ifs ofs read_size env).readOffset ≤ read_size := by
  refine ⟨rfl, ?_⟩
  have h := writeLoop_readOffset_le ofs ifs env
    (duplexForwardSize ifs ofs read_size) 0 [] hg
  rw [read_data_duplex_chunk]
  refine le_trans h ?_
  rw [duplexForwardSize, Nat.mul_div_cancel _ hofs, Nat.zero_add]
  exact Nat.div_mul_le_self read_size ifs

theorem duplex_no_overread_witness :
    (read_data_duplex_chunk 4 4 16 [⟨some 8, 2⟩, ⟨some 8, 2⟩]).readOffset ≤ 16 :=
  (duplex_no_overread 4 4 16 (by decide) [⟨some 8, 2⟩, ⟨some 8, 2⟩]
    (by decide)).2

/-- C5: a negative data-callback return on the write path cancels the
in-flight write, sets shutdown, and returns with the committed list
unchanged and no drain timer: nothing of that region reaches the
transport; on the input-only read path a negative return, or a frame
count different from the offered read_size / input-frame-size frames,
cancels the read and sets shutdown, and the chunk is not consumed. -/
theorem negative_callback_shutdown_no_commit (ofs ifs : Nat)
    (hasInput : Bool) (e : WriteEnv) (rest : List WriteEnv)
    (towrite ro : Nat) (comm : List Nat) (size : Nat)
    (htw : towrite ≠ 0) (hbw : e.beginWrite = some size)
    (hneg : e.callbackReturn < 0)
    (ifs2 read_size2 : Nat) (got2 : Int)
    (hviol : got2 < 0 ∨ got2.toNat ≠ read_size2 / ifs2) :
    trigger_user_callback_loop ofs ifs hasInput (e :: rest) towrite ro comm =
      ⟨.callbackNegative, ro, comm.reverse, true, false, true⟩ ∧
    read_data_input_only_chunk ifs2 read_size2 got2 =
      ⟨true, true, false, read_size2 / ifs2⟩ := by
  constructor
  · rw [trigger_user_callback_loop]
    simp [htw, hbw, hneg]
  · rw [read_data_input_only_chunk]
    simp [hviol]

theorem negative_callback_shutdown_no_commit_witness :
    trigger_user_callback_loop 4 4 false [⟨some 4, -1⟩] 8 0 [] =
      ⟨.callbackNegative, 0, [], true, false, true⟩ ∧
    read_data_input_only_chunk 4 16 3 = ⟨true, true, false, 4⟩ :=
  negative_callback_shutdown_no_commit 4 4 false ⟨some 4, -1⟩ [] 8 0 [] 4
    (by decide) rfl (by decide) 4 16 3 (by decide)

/-- Shared mutable state of the Stream engine (struct Stream,
stream.rs:63-77) as far as the lifecycle claims need it: shutdown flag,
cork state of the sub-streams, last reported lifecycle state, whether
the drain_timer field is non-null, plus two ghost observers: the count
of scheduled-and-not-freed timers and whether every drain scheduling so
far found the drain_timer field null (the debug_assert at
stream.rs:755). -/
structure Engine where
  shutdown : Bool
  corked : Bool
  state : CubebState
  drainTimerSet : Bool
  liveTimers : Nat
  drainAssertOk : Bool
  reported : List CubebState
deriving DecidableEq

/-- A freshly constructed engine (stream.rs:174-187 plus the
STREAM_START_CORKED connect flag): not shut down, corked, internal
state field STATE_ERROR, no drain timer, nothing reported yet. -/
def freshEngine : Engine :=
  { shutdown := false
    corked := true
    state := .error
    drainTimerSet := false
    liveTimers := 0
    drainAssertOk := true
    reported := [] }

/-- state_change_callback (stream.rs:632): records the state and
invokes the application state callback. -/
def state_change_callback (s : CubebState) (st : Engine) : Engine :=
  { st with state := s, reported := st.reported ++ [s] }

/-- Stream::cork (stream.rs:590-605): cork or uncork both sub-streams,
then when notify is requested report Stopped (cork) or Started
(uncork). -/
def cork (isCork notify : Bool) (st : Engine) : Engine :=
  let st1 := { st with corked := isCork }
  if notify then
    state_change_callback (if isCork then .stopped else .started) st1
  else st1

/-- check_error (stream.rs:98-104): a sub-stream state change whose
state is not good is reported to the application as STATE_ERROR; the
shutdown flag is not touched. -/
def check_error (streamStateGood : Bool) (st : Engine) : Engine :=
  if streamStateGood then st else state_change_callback .error st

/-- drained_cb (stream.rs:671-679): the drain timer fires, reports
Drained, frees the timer and nulls the drain_timer field. -/
def drained_cb (st : Engine) : Engine :=
  let st1 := state_change_callback .drained st
  { st1 with drainTimerSet := false, liveTimers := st1.liveTimers - 1 }

/-- Fold a write-loop result back into the engine: adopt the shutdown
flag, and on a drain scheduling (stream.rs:755-760) record whether the
drain_timer field was null at that moment, set it, and count the new
timer. -/
def applyWriteResult (st : Engine) (w : WriteResult) : Engine :=
  let st1 := if w.setShutdown then { st with shutdown := true } else st
  if w.scheduledDrainTimer then
    { st1 with
      drainAssertOk := st1.drainAssertOk && !st1.drainTimerSet
      drainTimerSet := true
      liveTimers := st1.liveTimers + 1 }
  else st1

/-- Events of an output-only engine: the public operations start, stop
and destroy, the write-ready callback from the server, the deferred
preroll scheduled by start, and the firing of the drain timer. -/
inductive StreamEvent
  | startOp
  | stopOp
  | destroyOp
  | writeReady (nbytes : Nat) (env : List WriteEnv)
  | prerollDeliver (size : Nat) (env : List WriteEnv)
  | drainTimerFires
deriving DecidableEq

/-- One step of the engine.
start (stream.rs:331-358): clear shutdown, uncork with notification
(reporting Started); the deferred preroll it schedules is delivered as
its own event.
stop (stream.rs:360-373): set shutdown, wait out an outstanding drain
timer (whose firing is drained_cb), then cork with notification
(reporting Stopped).
destroy (stream.rs:301-329): cork without notification and free any
pending drain timer.
write_data (stream.rs:159-172): no-op when shut down or not Started,
else the write loop on the requested bytes.
output_preroll (stream.rs:332-340): no-op only when shut down, else the
write loop on the writable size.
The drain timer firing is drained_cb when a timer is pending. -/
def stepEngine (ofs ifs : Nat) (st : Engine) : StreamEvent → Engine
  | .startOp => cork false true { st with shutdown := false }
  | .stopOp =>
      let st1 := { st with shutdown := true }
      let st2 := if st1.drainTimerSet then drained_cb st1 else st1
      cork true true st2
  | .destroyOp =>
      let st1 := cork true false st
      if st1.drainTimerSet then
        { st1 with drainTimerSet := false, liveTimers := st1.liveTimers - 1 }
      else st1
  | .writeReady nbytes env =>
      if st.shutdown = true ∨ st.state ≠ .started then st
      else applyWriteResult st (trigger_user_callback_loop ofs ifs false env nbytes 0 [])
  | .prerollDeliver size env =>
      if st.shutdown = true then st
      else applyWriteResult st (trigger_user_callback_loop ofs ifs false env size 0 [])
  | .drainTimerFires => if st.drainTimerSet then drained_cb st else st

/-- Run a sequence of events from a state. -/
def runEngine (ofs ifs : Nat) (st : Engine) (evs : List StreamEvent) : Engine :=
  evs.foldl (stepEngine ofs ifs) st

/-- C3 (code bug): the sequence start, write-ready with an underrun,
start again, write-ready with an underrun is reachable through public
operations and callback deliveries, and on it the write path schedules
a second drain timer while the first is still outstanding: the
drain_timer field is non-null at the second scheduling (the
debug_assert at stream.rs:755 fails) and two live timers exist, the
first one leaked.  Frame size 4, each underrun granting 8 bytes with
the callback producing 1 of 2 frames. -/
theorem double_start_double_drain_timer :
    (runEngine 4 4 freshEngine
        [.startOp, .writeReady 8 [⟨some 8, 1⟩]]).drainTimerSet = true ∧
    (runEngine 4 4 freshEngine
        [.startOp, .writeReady 8 [⟨some 8, 1⟩]]).drainAssertOk = true ∧
    (runEngine 4 4 freshEngine
        [.startOp, .writeReady 8 [⟨some 8, 1⟩], .startOp,
         .writeReady 8 [⟨some 8, 1⟩]]).drainAssertOk = false ∧
    (runEngine 4 4 freshEngine
        [.startOp, .writeReady 8 [⟨some 8, 1⟩], .startOp,
         .writeReady 8 [⟨some 8, 1⟩]]).liveTimers = 2 := by
  decide

/-- C8: a fresh engine is corked; running start then stop reports
exactly Started then Stopped and nothing else: start clears shutdown
and uncorks, stop sets shutdown (no drain timer is pending to wait
out) and corks. -/
theorem start_stop_reports_started_stopped :
    freshEngine.corked = true ∧
    freshEngine.reported = [] ∧
    (runEngine 4 4 freshEngine [.startOp]).shutdown = false ∧
    (runEngine 4 4 freshEngine [.startOp]).corked = false ∧
    (runEngine 4 4 freshEngine [.startOp]).reported = [.started] ∧
    (runEngine 4 4 freshEngine [.startOp]).drainTimerSet = false ∧
    (runEngine 4 4 freshEngine [.startOp, .stopOp]).shutdown = true ∧
    (runEngine 4 4 freshEngine [.startOp, .stopOp]).corked = true ∧
    (runEngine 4 4 freshEngine [.startOp, .stopOp]).reported =
      [.started, .stopped] := by
  decide

/-- C6 counterexample: a begin_write failure inside the write path, a
run-time I/O failure inside a registered callback, ends in the panic
branch (stream.rs:690-692) with shutdown not set and no Error state
reported: the failure is propagated as a panic across the event-loop
boundary instead of being contained. -/
theorem begin_write_failure_panics :
    (trigger_user_callback_loop 4 4 false [⟨none, 0⟩] 8 0 []).outcome =
      WriteOutcome.panicked ∧
    (trigger_user_callback_loop 4 4 false [⟨none, 0⟩] 8 0 []).setShutdown =
      false := by
  decide

/-- C6 amended: a begin_write failure in the write path panics, with
shutdown not set; a sub-stream state failure is surfaced to the
application through the state-change callback with Error, leaving the
shutdown flag unchanged, and a good state reports nothing. -/
theorem io_failure_handling_amended (e : WriteEnv) (rest : List WriteEnv)
    (ofs ifs towrite ro : Nat) (comm : List Nat) (hasInput : Bool)
    (htw : towrite ≠ 0) (hbw : e.beginWrite = none) (st : Engine) :
    (trigger_user_callback_loop ofs ifs hasInput (e :: rest) towrite ro
        comm).outcome = WriteOutcome.panicked ∧
    (trigger_user_callback_loop ofs ifs hasInput (e :: rest) towrite ro
        comm).setShutdown = false ∧
    check_error false st =
      { st with state := .error, reported := st.reported ++ [.error] } ∧
    (check_error false st).shutdown = st.shutdown ∧
    check_error true st = st := by
  rw [trigger_user_callback_loop]
  simp [htw, hbw, check_error, state_change_callback]

theorem io_failure_handling_amended_witness :
    (trigger_user_callback_loop 4 4 false [⟨none, 0⟩] 8 0 []).setShutdown =
      false ∧
    (check_error false freshEngine).shutdown = freshEngine.shutdown :=
  ⟨(io_failure_handling_amended ⟨none, 0⟩ [] 4 4 8 0 [] false (by decide) rfl
      freshEngine).2.1,
   (io_failure_handling_amended ⟨none, 0⟩ [] 4 4 8 0 [] false (by decide) rfl
      freshEngine).2.2.2.1⟩

end CubebPulse
